import Mathlib

/-!
Shallow embedding of the tournament-dashboard client store
(`src/lib/stores/tournamentStore.svelte.ts`, produced by
`src/frontend/write_store.py`).  The TypeScript store is a
single-threaded state machine: every handler and public operation is a
function from the previous `TournamentState` (plus the payload it
receives and the outcomes of the external calls it performs) to the
next `TournamentState`.  External effects (the fetch of the snapshot
endpoint, the POST commands, the SignalR connection start) are modelled
by explicit outcome parameters; wall-clock reads (`Date.now()`) are
modelled by an explicit `now : Int` parameter; JS numbers used by the
store are modelled as `Int` (all values the store manipulates are
integral); `number | string` wire fields are modelled by the sum type
`Wire`.
-/

namespace CaroStore

/-- Wire value that may be a numeric code or the canonical string form
(the TypeScript `number | string` union). -/
inductive Wire where
  | num (n : Int)
  | str (s : String)
deriving DecidableEq, Repr

/-- Source `mapStatusFromBackend`: a string is returned as-is; an
integer code is looked up in `{0: "idle", 1: "running", 2: "paused",
3: "completed"}` with fallback `"idle"`. -/
def mapStatusFromBackend : Wire → String
  | .str s => s
  | .num n =>
    if n = 0 then "idle"
    else if n = 1 then "running"
    else if n = 2 then "paused"
    else if n = 3 then "completed"
    else "idle"

/-- Source `mapDifficultyFromBackend`: a string is returned as-is; an
integer code is looked up in the 1..11 table with fallback
`"beginner"`. -/
def mapDifficultyFromBackend : Wire → String
  | .str s => s
  | .num n =>
    if n = 1 then "beginner"
    else if n = 2 then "easy"
    else if n = 3 then "normal"
    else if n = 4 then "medium"
    else if n = 5 then "hard"
    else if n = 6 then "harder"
    else if n = 7 then "veryHard"
    else if n = 8 then "expert"
    else if n = 9 then "master"
    else if n = 10 then "grandmaster"
    else if n = 11 then "legend"
    else "beginner"

/-- Source `interface BoardCell`. -/
structure BoardCell where
  x : Int
  y : Int
  player : String
deriving DecidableEq, Repr

/-- Source `interface AIBot`. -/
structure AIBot where
  name : String
  difficulty : String
  elo : Int
  wins : Int
  losses : Int
  draws : Int
  gamesPlayed : Int
  winRate : Int
deriving DecidableEq, Repr

/-- Source `interface EngineStats`. -/
structure EngineStats where
  depthAchieved : Int
  nodesSearched : Int
  nodesPerSecond : Int
  tableHitRate : Int
  ponderingActive : Bool
  vcfDepthAchieved : Int
  vcfNodesSearched : Int
deriving DecidableEq, Repr

/-- Source `interface CurrentMatchInfo`. -/
structure CurrentMatchInfo where
  gameId : String
  redBotName : String
  blueBotName : String
  redDifficulty : String
  blueDifficulty : String
  moveNumber : Int
  board : List BoardCell
  redTimeRemainingMs : Int
  blueTimeRemainingMs : Int
  initialTimeSeconds : Int
  incrementSeconds : Int
  lastMove : Option (Int × Int)
  lastMoveTimestamp : Int
  lastMoveStats : Option EngineStats
deriving DecidableEq, Repr

/-- Source `interface TournamentProgress`. -/
structure TournamentProgress where
  completed : Int
  total : Int
  percent : Int
deriving DecidableEq, Repr

/-- Source `interface MatchResult` (`winnerBotName` and `loserBotName`
are optional fields). -/
structure MatchResult where
  winner : String
  loser : String
  totalMoves : Int
  durationMs : Int
  winnerDifficulty : String
  loserDifficulty : String
  isDraw : Bool
  endedByTimeout : Bool
  winnerBotName : Option String
  loserBotName : Option String
deriving DecidableEq, Repr

/-- Source `interface TournamentState`; enum-like string unions are
modelled as `String`, `null`-able fields as `Option`. -/
structure TournamentState where
  status : String
  progress : TournamentProgress
  bots : List AIBot
  matchHistory : List MatchResult
  currentMatch : Option CurrentMatchInfo
  startTimeUtc : String
  endTimeUtc : Option String
  elapsed : String
  connectionState : String
  errorMessage : Option String
deriving DecidableEq, Repr

/-- The store's initial `$state` value (constructor initializer of
`TournamentStore.state`). -/
def initState : TournamentState :=
  { status := "idle"
    progress := { completed := 0, total := 0, percent := 0 }
    bots := []
    matchHistory := []
    currentMatch := none
    startTimeUtc := ""
    endTimeUtc := none
    elapsed := ""
    connectionState := "disconnected"
    errorMessage := none }

/-- JavaScript `a || d` for an optional string `a`: the default is used
when the value is absent (`undefined`/`null`) or the empty string (the
only falsy string). -/
def jsOrString : Option String → String → String
  | some m, d => if m = "" then d else m
  | none, d => d

/-- JavaScript `a || null` for an optional string `a`: empty or absent
collapses to `null`. -/
def jsOrNull : Option String → Option String
  | some m => if m = "" then none else some m
  | none => none

/-- One insertion step of the stable descending-by-`elo` sort that
models the JavaScript `bots.sort((a, b) => b.elo - a.elo)` (ECMAScript
`Array.prototype.sort` is stable; only the resulting order matters to
the store). -/
def insertByEloDesc (b : AIBot) : List AIBot → List AIBot
  | [] => [b]
  | c :: cs => if b.elo > c.elo then b :: c :: cs else c :: insertByEloDesc b cs

/-- Stable insertion sort by descending `elo`, modelling
`.sort((a, b) => b.elo - a.elo)`. -/
def sortByEloDesc : List AIBot → List AIBot
  | [] => []
  | b :: bs => insertByEloDesc b (sortByEloDesc bs)

/-- Boolean check that every adjacent pair of the roster is in
descending `elo` order. -/
def sortedByEloDesc : List AIBot → Bool
  | [] => true
  | [_] => true
  | a :: b :: rest => decide (b.elo ≤ a.elo) && sortedByEloDesc (b :: rest)

/-- Payload of the `OnMovePlayed` event.  The optional diagnostic
fields model properties that may be absent from the payload (the
handler defaults them with `|| 0` / `|| false`). -/
structure MoveEvent where
  moveNumber : Int
  redTimeRemainingMs : Int
  blueTimeRemainingMs : Int
  x : Int
  y : Int
  player : String
  depthAchieved : Option Int
  nodesSearched : Option Int
  nodesPerSecond : Option Int
  tableHitRate : Option Int
  ponderingActive : Option Bool
  vcfDepthAchieved : Option Int
  vcfNodesSearched : Option Int
deriving DecidableEq, Repr

/-- Payload of the `OnGameFinished` event. -/
structure FinishedEvent where
  winner : String
  loser : String
  totalMoves : Int
  durationMs : Int
  isDraw : Bool
  endedByTimeout : Bool
deriving DecidableEq, Repr

/-- Source `formatDuration` (`Math.floor` is floor division; JavaScript
`%` truncates toward zero, i.e. `Int.tmod`). -/
def formatDuration (ms : Int) : String :=
  let seconds := Int.fdiv ms 1000
  let minutes := Int.fdiv seconds 60
  let hours := Int.fdiv minutes 60
  if hours > 0 then toString hours ++ "h " ++ toString (Int.tmod minutes 60) ++ "m"
  else toString minutes ++ "m " ++ toString (Int.tmod seconds 60) ++ "s"

/-- `OnGameStarted` handler: replace the live match with a fresh one
(move number 0, empty board, both clocks 420000 ms, timestamp `now`). -/
def onGameStarted (s : TournamentState) (gameId redBot blueBot redDiff blueDiff : String)
    (now : Int) : TournamentState :=
  { s with currentMatch := some {
      gameId := gameId
      redBotName := redBot
      blueBotName := blueBot
      redDifficulty := redDiff
      blueDifficulty := blueDiff
      moveNumber := 0
      board := []
      redTimeRemainingMs := 420000
      blueTimeRemainingMs := 420000
      initialTimeSeconds := 420
      incrementSeconds := 5
      lastMove := none
      lastMoveTimestamp := now
      lastMoveStats := none } }

/-- The live-match update the `OnMovePlayed` handler performs: new
move counter, clock values and last-move data from the payload,
diagnostic fields defaulted (`|| 0` / `|| false`), and any board entry
at the event's coordinate replaced (`filter` then `push`). -/
def movedCM (cm : CurrentMatchInfo) (e : MoveEvent) (now : Int) : CurrentMatchInfo :=
  { cm with
    moveNumber := e.moveNumber
    redTimeRemainingMs := e.redTimeRemainingMs
    blueTimeRemainingMs := e.blueTimeRemainingMs
    lastMove := some (e.x, e.y)
    lastMoveTimestamp := now
    lastMoveStats := some
      { depthAchieved := e.depthAchieved.getD 0
        nodesSearched := e.nodesSearched.getD 0
        nodesPerSecond := e.nodesPerSecond.getD 0
        tableHitRate := e.tableHitRate.getD 0
        ponderingActive := e.ponderingActive.getD false
        vcfDepthAchieved := e.vcfDepthAchieved.getD 0
        vcfNodesSearched := e.vcfNodesSearched.getD 0 }
    board := cm.board.filter (fun b => b.x != e.x || b.y != e.y)
      ++ [{ x := e.x, y := e.y, player := e.player }] }

/-- `OnMovePlayed` handler: no-op without a live match; otherwise
apply `movedCM` to the live match. -/
def onMovePlayed (s : TournamentState) (e : MoveEvent) (now : Int) : TournamentState :=
  match s.currentMatch with
  | none => s
  | some cm => { s with currentMatch := some (movedCM cm e now) }

/-- The `MatchResult` the `OnGameFinished` handler builds from the
finished-event payload and the live match's red/blue assignment. -/
def mkMatchResult (cm : CurrentMatchInfo) (f : FinishedEvent) : MatchResult :=
  let isRedWinner := f.winner == "red"
  { winner := f.winner
    loser := f.loser
    totalMoves := f.totalMoves
    durationMs := f.durationMs
    winnerDifficulty := if isRedWinner then cm.redDifficulty else cm.blueDifficulty
    loserDifficulty := if isRedWinner then cm.blueDifficulty else cm.redDifficulty
    isDraw := f.isDraw
    endedByTimeout := f.endedByTimeout
    winnerBotName := some (if isRedWinner then cm.redBotName else cm.blueBotName)
    loserBotName := some (if isRedWinner then cm.blueBotName else cm.redBotName) }

/-- `OnGameFinished` handler: no-op without a live match; otherwise
prepend the derived `MatchResult` to `matchHistory`, keeping at most 19
of the previous entries (`[new, ...history.slice(0, 19)]`).  Note the
handler does not modify `currentMatch`. -/
def onGameFinished (s : TournamentState) (f : FinishedEvent) : TournamentState :=
  match s.currentMatch with
  | none => s
  | some cm => { s with matchHistory := mkMatchResult cm f :: s.matchHistory.take 19 }

/-- `OnTournamentProgress` handler: overwrite the progress fields. -/
def onTournamentProgress (s : TournamentState) (completed total percent : Int) :
    TournamentState :=
  { s with progress := { completed := completed, total := total, percent := percent } }

/-- `OnTournamentCompleted` handler: status `"completed"`, roster set
to `finalStandings` as received (no sort), progress forced to 100%,
end time stamped `now`, formatted elapsed duration stored. -/
def onTournamentCompleted (s : TournamentState) (finalStandings : List AIBot)
    (totalGames durationMs : Int) (nowIso : String) : TournamentState :=
  { s with
    status := "completed"
    bots := finalStandings
    progress := { completed := totalGames, total := totalGames, percent := 100 }
    endTimeUtc := some nowIso
    elapsed := formatDuration durationMs }

/-- `OnTournamentStatusChanged` handler: normalize and set the status;
stamp `startTimeUtc` only when the new status is `"running"` and no
start time was recorded (`!this.state.startTimeUtc`, i.e. it is the
empty string).  The `message` payload argument is unused by the
handler. -/
def onTournamentStatusChanged (s : TournamentState) (status : Wire) (_message : String)
    (nowIso : String) : TournamentState :=
  let s1 := { s with status := mapStatusFromBackend status }
  if s1.status == "running" && s1.startTimeUtc == "" then { s1 with startTimeUtc := nowIso }
  else s1

/-- `OnELOUpdated` handler: replace the roster with the received bots
sorted by descending elo. -/
def onELOUpdated (s : TournamentState) (bots : List AIBot) : TournamentState :=
  { s with bots := sortByEloDesc bots }

/-- One live-match clock tick of `updateCountdown`: subtract the
elapsed time since `lastMoveTimestamp` from the side on move (even
move number → red, odd → blue), floored at zero, and advance the
timestamp to `now`. -/
def tickCM (cm : CurrentMatchInfo) (now : Int) : CurrentMatchInfo :=
  let elapsed := now - cm.lastMoveTimestamp
  if cm.moveNumber % 2 == 0 then
    { cm with redTimeRemainingMs := max 0 (cm.redTimeRemainingMs - elapsed)
              lastMoveTimestamp := now }
  else
    { cm with blueTimeRemainingMs := max 0 (cm.blueTimeRemainingMs - elapsed)
              lastMoveTimestamp := now }

/-- Source `updateCountdown`: returns unchanged unless a live match
exists and the tournament status is `"running"`; otherwise performs
one clock tick at wall-clock time `now`. -/
def updateCountdown (s : TournamentState) (now : Int) : TournamentState :=
  match s.currentMatch with
  | none => s
  | some cm =>
    if s.status != "running" then s
    else { s with currentMatch := some (tickCM cm now) }

/-- A history entry as delivered by the snapshot endpoint: difficulty
fields are still wire values (`mapDifficultyFromBackend` is applied by
`fetchState`). -/
structure RawMatch where
  winner : String
  loser : String
  totalMoves : Int
  durationMs : Int
  winnerDifficulty : Wire
  loserDifficulty : Wire
  isDraw : Bool
  endedByTimeout : Bool
  winnerBotName : Option String
  loserBotName : Option String
deriving DecidableEq, Repr

/-- The live match as delivered by the snapshot endpoint (difficulties
are wire values; snapshots carry no `lastMoveStats`). -/
structure RawCurrentMatch where
  gameId : String
  redBotName : String
  blueBotName : String
  redDifficulty : Wire
  blueDifficulty : Wire
  moveNumber : Int
  board : List BoardCell
  redTimeRemainingMs : Int
  blueTimeRemainingMs : Int
  initialTimeSeconds : Int
  incrementSeconds : Int
  lastMove : Option (Int × Int)
  lastMoveTimestamp : Int
deriving DecidableEq, Repr

/-- Parsed JSON body of a `GET /state` response.  `Option` fields model
properties the body may omit (the code defaults them with `|| []`,
`|| ""`, `|| null`, or the `data.currentMatch ? ... : null` test). -/
structure SnapshotData where
  status : Wire
  completedGames : Int
  totalGames : Int
  progressPercent : Int
  bots : Option (List AIBot)
  matchHistory : Option (List RawMatch)
  currentMatch : Option RawCurrentMatch
  startTimeUtc : Option String
  endTimeUtc : Option String
deriving DecidableEq, Repr

/-- Outcome of the `fetch(API_BASE + "/state")` call performed by
`fetchState`: either the network request rejects (fetch throws), or a
response arrives with its `ok` flag and parsed body. -/
inductive FetchOutcome where
  | networkError
  | response (ok : Bool) (data : SnapshotData)
deriving DecidableEq, Repr

/-- Conversion `fetchState` applies to each snapshot history entry
(its `.map` over `data.matchHistory`). -/
def convertRawMatch (m : RawMatch) : MatchResult :=
  { winner := m.winner
    loser := m.loser
    totalMoves := m.totalMoves
    durationMs := m.durationMs
    winnerDifficulty := mapDifficultyFromBackend m.winnerDifficulty
    loserDifficulty := mapDifficultyFromBackend m.loserDifficulty
    isDraw := m.isDraw
    endedByTimeout := m.endedByTimeout
    winnerBotName := m.winnerBotName
    loserBotName := m.loserBotName }

/-- Conversion `fetchState` applies to the snapshot's live match
(spread of `data.currentMatch` with normalized difficulties and
`lastMoveStats: null`). -/
def convertRawCurrentMatch (c : RawCurrentMatch) : CurrentMatchInfo :=
  { gameId := c.gameId
    redBotName := c.redBotName
    blueBotName := c.blueBotName
    redDifficulty := mapDifficultyFromBackend c.redDifficulty
    blueDifficulty := mapDifficultyFromBackend c.blueDifficulty
    moveNumber := c.moveNumber
    board := c.board
    redTimeRemainingMs := c.redTimeRemainingMs
    blueTimeRemainingMs := c.blueTimeRemainingMs
    initialTimeSeconds := c.initialTimeSeconds
    incrementSeconds := c.incrementSeconds
    lastMove := c.lastMove
    lastMoveTimestamp := c.lastMoveTimestamp
    lastMoveStats := none }

/-- Source `fetchState`: on a network error, or on a non-`ok` response
(the code throws and the surrounding `catch` only logs), the state is
returned unchanged; on a successful response every snapshot-backed
field is overwritten (status normalized, roster sorted by descending
elo, history entries converted, live match converted or `null`). -/
def fetchState (s : TournamentState) (o : FetchOutcome) : TournamentState :=
  match o with
  | .networkError => s
  | .response ok data =>
    if !ok then s
    else
      { s with
        status := mapStatusFromBackend data.status
        progress := { completed := data.completedGames, total := data.totalGames,
                      percent := data.progressPercent }
        bots := sortByEloDesc (data.bots.getD [])
        matchHistory := (data.matchHistory.getD []).map convertRawMatch
        currentMatch := data.currentMatch.map convertRawCurrentMatch
        startTimeUtc := jsOrString data.startTimeUtc ""
        endTimeUtc := jsOrNull data.endTimeUtc }

/-- Outcome of a `fetch(..., { method: "POST" })` command call:
`networkError m` models any rejection inside the `try` block (fetch or
body parsing) with error message `m`; `response ok message` models a
response with its `ok` flag and the `message` field of its parsed
body (absent → `none`). -/
inductive CmdOutcome where
  | networkError (errMsg : String)
  | response (ok : Bool) (message : Option String)
deriving DecidableEq, Repr

/-- Source `startTournament`: non-`ok` response → store
`data.message || "Failed to start"` and return `false`; rejection →
store `"Failed to start: " + err.message` and return `false`; `ok`
response → run `fetchState` (with outcome `fo`) and return `true`. -/
def startTournament (s : TournamentState) (o : CmdOutcome) (fo : FetchOutcome) :
    TournamentState × Bool :=
  match o with
  | .networkError m => ({ s with errorMessage := some ("Failed to start: " ++ m) }, false)
  | .response ok message =>
    if !ok then ({ s with errorMessage := some (jsOrString message "Failed to start") }, false)
    else (fetchState s fo, true)

/-- Source `pauseTournament`: non-`ok` response → return `false`
without touching any state field; rejection → store
`"Failed to pause: " + err.message` and return `false`; `ok` response
→ run `fetchState` and return `true`. -/
def pauseTournament (s : TournamentState) (o : CmdOutcome) (fo : FetchOutcome) :
    TournamentState × Bool :=
  match o with
  | .networkError m => ({ s with errorMessage := some ("Failed to pause: " ++ m) }, false)
  | .response ok _ => if !ok then (s, false) else (fetchState s fo, true)

/-- Source `resumeTournament`: same shape as `pauseTournament` with the
`"Failed to resume: "` message. -/
def resumeTournament (s : TournamentState) (o : CmdOutcome) (fo : FetchOutcome) :
    TournamentState × Bool :=
  match o with
  | .networkError m => ({ s with errorMessage := some ("Failed to resume: " ++ m) }, false)
  | .response ok _ => if !ok then (s, false) else (fetchState s fo, true)

/-- The store's `maxReconnectAttempts` field. -/
def maxReconnectAttempts : Nat := 5

/-- The `nextRetryDelayInMilliseconds` policy passed to
`withAutomaticReconnect`: `null` (no further attempt) once
`previousRetryCount` reaches `maxReconnectAttempts`, else
`min(1000 * 2^previousRetryCount, 10000)`. -/
def nextRetryDelayInMilliseconds (previousRetryCount : Nat) : Option Int :=
  if previousRetryCount ≥ maxReconnectAttempts then none
  else some (min (1000 * 2 ^ previousRetryCount) 10000)

/-- The `onclose` callback: connection state becomes `"disconnected"`;
when the close carries an error, its message is surfaced. -/
def onclose (s : TournamentState) (error : Option String) : TournamentState :=
  let s1 := { s with connectionState := "disconnected" }
  match error with
  | some msg => { s1 with errorMessage := some ("Connection closed: " ++ msg) }
  | none => s1

/-- The `onreconnecting` callback: state `"reconnecting"` with the
transport error's message (or the generic fallback) surfaced. -/
def onreconnecting (s : TournamentState) (error : Option String) : TournamentState :=
  { s with connectionState := "reconnecting"
           errorMessage := some (jsOrString error "Connection lost. Reconnecting...") }

/-- The `onreconnected` callback: state `"connected"`, error cleared,
snapshot re-fetched. -/
def onreconnected (s : TournamentState) (fo : FetchOutcome) : TournamentState :=
  fetchState { s with connectionState := "connected", errorMessage := none } fo

/-- Outcome of `await this.connection.start()` inside `connect`:
either it rejects with an error message, or it resolves and the
subsequent `fetchState` runs with outcome `fo`. -/
inductive ConnectOutcome where
  | startFails (errMsg : String)
  | startSucceeds (fo : FetchOutcome)
deriving DecidableEq, Repr

/-- Source `connect`.  The second component is the exception the call
propagates to its caller (`none` = returns normally): the `catch`
block records `"disconnected"` and the failure message in the state
and then re-throws the error (`throw err`).  `alreadyConnected` models
the `this.connection?.state === Connected` early return. -/
def connect (s : TournamentState) (alreadyConnected : Bool) (o : ConnectOutcome) :
    TournamentState × Option String :=
  if alreadyConnected then (s, none)
  else
    let s1 := { s with connectionState := "connecting", errorMessage := none }
    match o with
    | .startSucceeds fo =>
      (fetchState { s1 with connectionState := "connected" } fo, none)
    | .startFails m =>
      ({ s1 with connectionState := "disconnected"
                 errorMessage := some ("Failed to connect: " ++ m) }, some m)

/-- Source `disconnect`: stops the tick and the connection and sets the
connection state to `"disconnected"`; no other state field changes. -/
def disconnect (s : TournamentState) : TournamentState :=
  { s with connectionState := "disconnected" }

/-- Fold of `OnGameFinished` over a sequence of finished events. -/
def applyFinishedEvents (s : TournamentState) : List FinishedEvent → TournamentState
  | [] => s
  | f :: fs => applyFinishedEvents (onGameFinished s f) fs

/-- An input to the live-match clock machinery: a 100 ms countdown tick
or an `OnMovePlayed` event, each at a wall-clock time. -/
inductive ClockInput where
  | tick (now : Int)
  | move (e : MoveEvent) (now : Int)
deriving DecidableEq, Repr

/-- Fold of `updateCountdown` / `OnMovePlayed` over a sequence of clock
inputs. -/
def applyClockInputs (s : TournamentState) : List ClockInput → TournamentState
  | [] => s
  | .tick now :: rest => applyClockInputs (updateCountdown s now) rest
  | .move e now :: rest => applyClockInputs (onMovePlayed s e now) rest

/-- Both remaining-time budgets of the live match (if any) are
nonnegative. -/
def clocksNonneg (s : TournamentState) : Bool :=
  match s.currentMatch with
  | none => true
  | some cm => decide (0 ≤ cm.redTimeRemainingMs) && decide (0 ≤ cm.blueTimeRemainingMs)

/-- A clock input whose move payload (if it is a move) reports
nonnegative remaining times. -/
def inputNonneg : ClockInput → Prop
  | .tick _ => True
  | .move e _ => 0 ≤ e.redTimeRemainingMs ∧ 0 ≤ e.blueTimeRemainingMs

instance : DecidablePred inputNonneg := fun i =>
  match i with
  | .tick _ => isTrue trivial
  | .move e _ =>
    inferInstanceAs (Decidable (0 ≤ e.redTimeRemainingMs ∧ 0 ≤ e.blueTimeRemainingMs))

/-! ## Helper lemmas -/

/-- Descending-rating order between two bots. -/
def eloGE (a b : AIBot) : Prop := b.elo ≤ a.elo

theorem mem_insertByEloDesc {x b : AIBot} {l : List AIBot}
    (h : x ∈ insertByEloDesc b l) : x = b ∨ x ∈ l := by
  induction l with
  | nil => simpa [insertByEloDesc] using h
  | cons c cs ih =>
    simp only [insertByEloDesc] at h
    split at h
    · rcases List.mem_cons.mp h with h | h
      · exact Or.inl h
      · exact Or.inr h
    · rcases List.mem_cons.mp h with h | h
      · exact Or.inr (by simp [h])
      · rcases ih h with h | h
        · exact Or.inl h
        · exact Or.inr (by simp [h])

theorem pairwise_insertByEloDesc {b : AIBot} {l : List AIBot}
    (h : l.Pairwise eloGE) : (insertByEloDesc b l).Pairwise eloGE := by
  induction l with
  | nil => simp [insertByEloDesc, List.Pairwise]
  | cons c cs ih =>
    rw [List.pairwise_cons] at h
    obtain ⟨hc, hcs⟩ := h
    simp only [insertByEloDesc]
    split
    · rename_i hb
      rw [List.pairwise_cons]
      refine ⟨?_, List.pairwise_cons.mpr ⟨hc, hcs⟩⟩
      intro x hx
      rcases List.mem_cons.mp hx with rfl | hx
      · exact le_of_lt hb
      · exact le_trans (hc x hx) (le_of_lt hb)
    · rename_i hb
      rw [List.pairwise_cons]
      refine ⟨?_, ih hcs⟩
      intro x hx
      rcases mem_insertByEloDesc hx with rfl | hx
      · exact le_of_not_lt hb
      · exact hc x hx

theorem pairwise_sortByEloDesc (l : List AIBot) : (sortByEloDesc l).Pairwise eloGE := by
  induction l with
  | nil => simp [sortByEloDesc]
  | cons b bs ih =>
    show (insertByEloDesc b (sortByEloDesc bs)).Pairwise eloGE
    exact pairwise_insertByEloDesc ih

theorem sortedByEloDesc_of_pairwise :
    ∀ {l : List AIBot}, l.Pairwise eloGE → sortedByEloDesc l = true
  | [], _ => rfl
  | [_], _ => rfl
  | a :: b :: rest, h => by
    rw [List.pairwise_cons] at h
    obtain ⟨ha, h2⟩ := h
    simp only [sortedByEloDesc, Bool.and_eq_true, decide_eq_true_eq]
    exact ⟨ha b (by simp), sortedByEloDesc_of_pairwise h2⟩

theorem sortedByEloDesc_sortByEloDesc (l : List AIBot) :
    sortedByEloDesc (sortByEloDesc l) = true :=
  sortedByEloDesc_of_pairwise (pairwise_sortByEloDesc l)

/-! ## Claim theorems -/

/-- C10: the status normalizer maps integer codes 0–3 to
idle/running/paused/completed and every other integer to `"idle"`; the
difficulty normalizer maps 1–11 to the eleven named tiers and every
other integer to `"beginner"`; both return an already-canonical string
value unchanged. -/
theorem c10_normalizers :
    (mapStatusFromBackend (.num 0) = "idle" ∧ mapStatusFromBackend (.num 1) = "running" ∧
      mapStatusFromBackend (.num 2) = "paused" ∧ mapStatusFromBackend (.num 3) = "completed") ∧
    (∀ n : Int, n < 0 ∨ 3 < n → mapStatusFromBackend (.num n) = "idle") ∧
    (mapDifficultyFromBackend (.num 1) = "beginner" ∧
      mapDifficultyFromBackend (.num 2) = "easy" ∧
      mapDifficultyFromBackend (.num 3) = "normal" ∧
      mapDifficultyFromBackend (.num 4) = "medium" ∧
      mapDifficultyFromBackend (.num 5) = "hard" ∧
      mapDifficultyFromBackend (.num 6) = "harder" ∧
      mapDifficultyFromBackend (.num 7) = "veryHard" ∧
      mapDifficultyFromBackend (.num 8) = "expert" ∧
      mapDifficultyFromBackend (.num 9) = "master" ∧
      mapDifficultyFromBackend (.num 10) = "grandmaster" ∧
      mapDifficultyFromBackend (.num 11) = "legend") ∧
    (∀ n : Int, n < 1 ∨ 11 < n → mapDifficultyFromBackend (.num n) = "beginner") ∧
    (∀ s : String, mapStatusFromBackend (.str s) = s ∧ mapDifficultyFromBackend (.str s) = s) := by
  refine ⟨by decide, ?_, by decide, ?_, fun s => ⟨rfl, rfl⟩⟩
  · intro n h
    have d0 : ¬n = 0 := by omega
    have d1 : ¬n = 1 := by omega
    have d2 : ¬n = 2 := by omega
    have d3 : ¬n = 3 := by omega
    simp only [mapStatusFromBackend, d0, d1, d2, d3, if_false]
  · intro n h
    have e1 : ¬n = 1 := by omega
    have e2 : ¬n = 2 := by omega
    have e3 : ¬n = 3 := by omega
    have e4 : ¬n = 4 := by omega
    have e5 : ¬n = 5 := by omega
    have e6 : ¬n = 6 := by omega
    have e7 : ¬n = 7 := by omega
    have e8 : ¬n = 8 := by omega
    have e9 : ¬n = 9 := by omega
    have e10 : ¬n = 10 := by omega
    have e11 : ¬n = 11 := by omega
    simp only [mapDifficultyFromBackend, e1, e2, e3, e4, e5, e6, e7, e8, e9, e10, e11,
      if_false]

/-- C10 witness: the quantified fallback and identity clauses applied
at concrete inputs. -/
theorem c10_normalizers_witness :
    mapStatusFromBackend (.num 7) = "idle" ∧
    mapDifficultyFromBackend (.num 0) = "beginner" ∧
    mapStatusFromBackend (.str "paused") = "paused" :=
  ⟨c10_normalizers.2.1 7 (Or.inr (by decide)),
   c10_normalizers.2.2.2.1 0 (Or.inl (by decide)),
   (c10_normalizers.2.2.2.2 "paused").1⟩

/-- A bot fixture with low rating. -/
def botLow : AIBot :=
  { name := "low", difficulty := "beginner", elo := 100, wins := 0, losses := 0,
    draws := 0, gamesPlayed := 0, winRate := 0 }

/-- A bot fixture with high rating. -/
def botHigh : AIBot := { botLow with name := "high", elo := 200 }

/-- C3 counterexample: the `OnTournamentCompleted` handler stores the
reported final standings without sorting, so a roster received in
ascending rating order is not sorted descending afterwards. -/
theorem c3_counterexample :
    sortedByEloDesc (onTournamentCompleted initState [botLow, botHigh] 2 0 "t").bots
      = false := by rfl

/-- C3 (amended): the roster is sorted in descending rating order after
every ratings-updated event and after every successful snapshot fetch;
the tournament-completed handler instead stores the reported final
standings exactly as received (unsorted). -/
theorem c3_roster_sorted (s : TournamentState) (bots standings : List AIBot)
    (data : SnapshotData) (totalGames durationMs : Int) (nowIso : String) :
    sortedByEloDesc (onELOUpdated s bots).bots = true ∧
    sortedByEloDesc (fetchState s (.response true data)).bots = true ∧
    (onTournamentCompleted s standings totalGames durationMs nowIso).bots = standings := by
  refine ⟨?_, ?_, rfl⟩
  · exact sortedByEloDesc_sortByEloDesc bots
  · show sortedByEloDesc (sortByEloDesc (data.bots.getD [])) = true
    exact sortedByEloDesc_sortByEloDesc _

/-- C9: the reconnect delay for attempt `n < 5` is
`min(1000 * 2^n, 10000)` ms — concretely 1000, 2000, 4000, 8000,
10000 — the policy yields no delay once the previous retry count
reaches 5, and a close carrying an error leaves the session
disconnected with an explanatory message. -/
theorem c9_backoff :
    nextRetryDelayInMilliseconds 0 = some 1000 ∧
    nextRetryDelayInMilliseconds 1 = some 2000 ∧
    nextRetryDelayInMilliseconds 2 = some 4000 ∧
    nextRetryDelayInMilliseconds 3 = some 8000 ∧
    nextRetryDelayInMilliseconds 4 = some 10000 ∧
    (∀ n, n < maxReconnectAttempts →
      nextRetryDelayInMilliseconds n = some (min (1000 * 2 ^ n) 10000)) ∧
    (∀ n, maxReconnectAttempts ≤ n → nextRetryDelayInMilliseconds n = none) ∧
    (∀ s msg, (onclose s (some msg)).connectionState = "disconnected" ∧
      (onclose s (some msg)).errorMessage = some ("Connection closed: " ++ msg)) := by
  refine ⟨by decide, by decide, by decide, by decide, by decide, ?_, ?_, fun s msg => ⟨rfl, rfl⟩⟩
  · intro n h
    simp only [nextRetryDelayInMilliseconds]
    rw [if_neg (by omega)]
  · intro n h
    simp only [nextRetryDelayInMilliseconds]
    rw [if_pos h]

/-- C9 witness: the retry-count clauses applied at attempts 3 and 5. -/
theorem c9_backoff_witness :
    nextRetryDelayInMilliseconds 3 = some (min (1000 * 2 ^ 3) 10000) ∧
    nextRetryDelayInMilliseconds 5 = none :=
  ⟨c9_backoff.2.2.2.2.2.1 3 (by decide),
   c9_backoff.2.2.2.2.2.2.1 5 (by decide)⟩

/-- A live-match fixture. -/
def liveCM : CurrentMatchInfo :=
  { gameId := "g1", redBotName := "A", blueBotName := "B", redDifficulty := "normal",
    blueDifficulty := "hard", moveNumber := 0, board := [], redTimeRemainingMs := 420000,
    blueTimeRemainingMs := 420000, initialTimeSeconds := 420, incrementSeconds := 5,
    lastMove := none, lastMoveTimestamp := 0, lastMoveStats := none }

/-- A running state carrying the live-match fixture. -/
def liveState : TournamentState :=
  { initState with status := "running", currentMatch := some liveCM }

/-- A finished-event fixture. -/
def finishedEv : FinishedEvent :=
  { winner := "red", loser := "blue", totalMoves := 1, durationMs := 5000,
    isDraw := false, endedByTimeout := false }

/-- A move-event fixture at coordinate (3, 4). -/
def moveEv : MoveEvent :=
  { moveNumber := 1, redTimeRemainingMs := 415000, blueTimeRemainingMs := 420000,
    x := 3, y := 4, player := "red", depthAchieved := none, nodesSearched := none,
    nodesPerSecond := none, tableHitRate := none, ponderingActive := none,
    vcfDepthAchieved := none, vcfNodesSearched := none }

/-- A move-event fixture reporting a negative red clock. -/
def negMoveEv : MoveEvent := { moveEv with redTimeRemainingMs := -1 }

/-- A snapshot body reporting no active match. -/
def emptySnapshot : SnapshotData :=
  { status := .str "idle", completedGames := 0, totalGames := 0, progressPercent := 0,
    bots := none, matchHistory := none, currentMatch := none, startTimeUtc := none,
    endTimeUtc := none }

/-- A history-entry fixture. -/
def dummyResult : MatchResult :=
  { winner := "red", loser := "blue", totalMoves := 10, durationMs := 1000,
    winnerDifficulty := "normal", loserDifficulty := "hard", isDraw := false,
    endedByTimeout := false, winnerBotName := none, loserBotName := none }

/-- A state with no live match whose history holds 21 entries (such a
state is reachable: `fetchState` copies the snapshot's history without
truncation). -/
def longHistoryState : TournamentState :=
  { initState with matchHistory := List.replicate 21 dummyResult }

/-- Distinct coordinates for two board cells. -/
def coordDistinct (a b : BoardCell) : Prop := ¬(a.x = b.x ∧ a.y = b.y)

theorem length_onGameFinished_le (s : TournamentState) (f : FinishedEvent)
    (h : s.matchHistory.length ≤ 20) :
    (onGameFinished s f).matchHistory.length ≤ 20 := by
  cases hc : s.currentMatch with
  | none => simpa [onGameFinished, hc] using h
  | some cm =>
    have ht := List.length_take_le 19 s.matchHistory
    simp only [onGameFinished, hc, List.length_cons]
    omega

theorem length_applyFinishedEvents_le (fs : List FinishedEvent) :
    ∀ s : TournamentState, s.matchHistory.length ≤ 20 →
      (applyFinishedEvents s fs).matchHistory.length ≤ 20 := by
  induction fs with
  | nil => intro s h; exact h
  | cons f fs ih => intro s h; exact ih _ (length_onGameFinished_le s f h)

theorem tickCM_nonneg (cm : CurrentMatchInfo) (now : Int)
    (hr : 0 ≤ cm.redTimeRemainingMs) (hb : 0 ≤ cm.blueTimeRemainingMs) :
    0 ≤ (tickCM cm now).redTimeRemainingMs ∧ 0 ≤ (tickCM cm now).blueTimeRemainingMs := by
  unfold tickCM
  split
  · exact ⟨le_max_left 0 _, hb⟩
  · exact ⟨hr, le_max_left 0 _⟩

theorem clocksNonneg_updateCountdown (s : TournamentState) (now : Int)
    (h : clocksNonneg s = true) : clocksNonneg (updateCountdown s now) = true := by
  cases hc : s.currentMatch with
  | none => simpa [updateCountdown, hc] using h
  | some cm =>
    simp only [updateCountdown, hc]
    split
    · exact h
    · simp only [clocksNonneg, hc, Bool.and_eq_true, decide_eq_true_eq] at h
      have ht := tickCM_nonneg cm now h.1 h.2
      simp only [clocksNonneg, Bool.and_eq_true, decide_eq_true_eq]
      exact ht

theorem clocksNonneg_onMovePlayed (s : TournamentState) (e : MoveEvent) (now : Int)
    (h : clocksNonneg s = true) (hr : 0 ≤ e.redTimeRemainingMs)
    (hb : 0 ≤ e.blueTimeRemainingMs) :
    clocksNonneg (onMovePlayed s e now) = true := by
  unfold onMovePlayed
  cases hc : s.currentMatch with
  | none => exact h
  | some cm =>
    simp only [clocksNonneg, Bool.and_eq_true, decide_eq_true_eq]
    exact ⟨hr, hb⟩

theorem clocksNonneg_applyClockInputs (inputs : List ClockInput) :
    ∀ s : TournamentState, clocksNonneg s = true → (∀ i ∈ inputs, inputNonneg i) →
      clocksNonneg (applyClockInputs s inputs) = true := by
  induction inputs with
  | nil => intro s h _; exact h
  | cons i rest ih =>
    intro s h hall
    cases i with
    | tick now =>
      exact ih _ (clocksNonneg_updateCountdown s now h)
        (fun j hj => hall j (List.mem_cons_of_mem _ hj))
    | move e now =>
      have hm : inputNonneg (.move e now) := hall _ (List.mem_cons_self _ _)
      exact ih _ (clocksNonneg_onMovePlayed s e now h hm.1 hm.2)
        (fun j hj => hall j (List.mem_cons_of_mem _ hj))

/-- C8: a snapshot fetch that fails — the network request rejects or
the response is non-`ok` — returns with the tournament state exactly as
it was before the call (every field untouched). -/
theorem c8_fetch_failure (s : TournamentState) (data : SnapshotData) :
    fetchState s .networkError = s ∧ fetchState s (.response false data) = s :=
  ⟨rfl, rfl⟩

/-- C2 counterexample: processing a match-finished event on a state
with a live match leaves the live match in place (it is not replaced by
null). -/
theorem c2_counterexample :
    (onGameFinished liveState finishedEv).currentMatch ≠ none := by decide

/-- C2 (amended): the match-finished handler never modifies the live
match (it only prepends to the history); only a snapshot fetch whose
response reports no active match replaces the live match with null. -/
theorem c2_live_match (s : TournamentState) (f : FinishedEvent) (data : SnapshotData)
    (h : data.currentMatch = none) :
    (onGameFinished s f).currentMatch = s.currentMatch ∧
    (fetchState s (.response true data)).currentMatch = none := by
  constructor
  · cases hc : s.currentMatch with
    | none => simp [onGameFinished, hc]
    | some cm => simp [onGameFinished, hc]
  · simp [fetchState, h]

/-- C2 witness: the amended claim applied to the live-match fixture and
a snapshot body with no active match. -/
theorem c2_live_match_witness :
    (onGameFinished liveState finishedEv).currentMatch = liveState.currentMatch ∧
    (fetchState liveState (.response true emptySnapshot)).currentMatch = none :=
  c2_live_match liveState finishedEv emptySnapshot rfl

/-- C4 counterexample: a pause command receiving a non-`ok` response
with the server message `"srv"` stores no error message at all (the
field stays `none`) while returning `false`. -/
theorem c4_counterexample :
    (pauseTournament initState (.response false (some "srv")) .networkError).1.errorMessage
        = none ∧
    (pauseTournament initState (.response false (some "srv")) .networkError).2 = false :=
  ⟨rfl, rfl⟩

/-- C4 (amended): on a non-`ok` response, start stores the
server-provided message (else a generic one) and returns false, while
pause and resume return false leaving the state — including
`errorMessage` — untouched; on a rejected request each of the three
stores a generic message with the error text and returns false; on a
success response each triggers a snapshot fetch and returns true; none
of them throws past the call site. -/
theorem c4_commands (s : TournamentState) (message : Option String) (m : String)
    (fo : FetchOutcome) :
    (startTournament s (.response false message) fo
      = ({ s with errorMessage := some (jsOrString message "Failed to start") }, false)) ∧
    (pauseTournament s (.response false message) fo = (s, false)) ∧
    (resumeTournament s (.response false message) fo = (s, false)) ∧
    (startTournament s (.response true message) fo = (fetchState s fo, true)) ∧
    (pauseTournament s (.response true message) fo = (fetchState s fo, true)) ∧
    (resumeTournament s (.response true message) fo = (fetchState s fo, true)) ∧
    (startTournament s (.networkError m) fo
      = ({ s with errorMessage := some ("Failed to start: " ++ m) }, false)) ∧
    (pauseTournament s (.networkError m) fo
      = ({ s with errorMessage := some ("Failed to pause: " ++ m) }, false)) ∧
    (resumeTournament s (.networkError m) fo
      = ({ s with errorMessage := some ("Failed to resume: " ++ m) }, false)) := by
  and_intros <;> rfl

/-- C5 counterexample: a match-finished event applied to a (reachable)
state with no live match and 21 stored history entries is a no-op, so
the history still exceeds 20 entries afterwards. -/
theorem c5_counterexample :
    ¬ (onGameFinished longHistoryState finishedEv).matchHistory.length ≤ 20 := by decide

/-- C5 (amended): a match-finished event with a live match present
prepends exactly one new `MatchResult` and retains at most 19 of the
previously stored entries (most-recent-first), so its result holds at
most 20 entries; provided the starting history holds at most 20
entries, every sequence of match-finished events keeps it at most 20
(without a live match the event is a no-op, so a longer
snapshot-loaded history is preserved as is). -/
theorem c5_history (s : TournamentState) (cm : CurrentMatchInfo) (f : FinishedEvent)
    (fs : List FinishedEvent) (hcm : s.currentMatch = some cm)
    (hlen : s.matchHistory.length ≤ 20) :
    (onGameFinished s f).matchHistory = mkMatchResult cm f :: s.matchHistory.take 19 ∧
    (onGameFinished s f).matchHistory.length ≤ 20 ∧
    (applyFinishedEvents s fs).matchHistory.length ≤ 20 := by
  refine ⟨?_, length_onGameFinished_le s f hlen, length_applyFinishedEvents_le fs s hlen⟩
  simp [onGameFinished, hcm]

/-- C5 witness: the amended claim applied to the live-match fixture and
a two-event sequence. -/
theorem c5_history_witness :
    (onGameFinished liveState finishedEv).matchHistory
        = mkMatchResult liveCM finishedEv :: liveState.matchHistory.take 19 ∧
    (onGameFinished liveState finishedEv).matchHistory.length ≤ 20 ∧
    (applyFinishedEvents liveState [finishedEv, finishedEv]).matchHistory.length ≤ 20 :=
  c5_history liveState liveCM finishedEv [finishedEv, finishedEv] rfl (by decide)

/-- C6: a move-played event on a live match whose board has at most one
entry per coordinate yields a board that again has at most one entry
per coordinate, and whose unique entry at the event's coordinate is the
occupant the event reports (any prior entry there is removed before the
new one is appended). -/
theorem c6_board (s : TournamentState) (cm : CurrentMatchInfo) (e : MoveEvent) (now : Int)
    (hcm : s.currentMatch = some cm) (hb : cm.board.Pairwise coordDistinct) :
    ∃ cm', (onMovePlayed s e now).currentMatch = some cm' ∧
      cm'.board.Pairwise coordDistinct ∧
      cm'.board.filter (fun b => b.x == e.x && b.y == e.y)
        = [{ x := e.x, y := e.y, player := e.player }] := by
  refine ⟨movedCM cm e now, by simp [onMovePlayed, hcm], ?_, ?_⟩
  · show (cm.board.filter (fun b : BoardCell => b.x != e.x || b.y != e.y)
      ++ [({ x := e.x, y := e.y, player := e.player } : BoardCell)]).Pairwise coordDistinct
    rw [List.pairwise_append]
    refine ⟨hb.filter _, by simp [coordDistinct], ?_⟩
    intro a ha b hbm
    rw [List.mem_filter] at ha
    rcases ha with ⟨-, hpa⟩
    rw [List.mem_singleton] at hbm
    subst hbm
    simp only [Bool.or_eq_true, bne_iff_ne, ne_eq] at hpa
    intro hcontra
    rcases hpa with hx | hy
    · exact hx hcontra.1
    · exact hy hcontra.2
  · show (cm.board.filter (fun b : BoardCell => b.x != e.x || b.y != e.y)
        ++ [({ x := e.x, y := e.y, player := e.player } : BoardCell)]).filter
          (fun b : BoardCell => b.x == e.x && b.y == e.y)
      = [({ x := e.x, y := e.y, player := e.player } : BoardCell)]
    rw [List.filter_append]
    have h1 : (cm.board.filter (fun b => b.x != e.x || b.y != e.y)).filter
        (fun b => b.x == e.x && b.y == e.y) = [] := by
      rw [List.filter_eq_nil_iff]
      intro a ha
      rw [List.mem_filter] at ha
      rcases ha with ⟨-, hpa⟩
      simp only [Bool.or_eq_true, bne_iff_ne, ne_eq] at hpa
      simp only [Bool.and_eq_true, beq_iff_eq]
      intro hcontra
      rcases hpa with hx | hy
      · exact hx hcontra.1
      · exact hy hcontra.2
    rw [h1]
    simp

/-- C6 witness: the claim applied to the live-match fixture (empty
board) and the move fixture at coordinate (3, 4). -/
theorem c6_board_witness :
    ∃ cm', (onMovePlayed liveState moveEv 1000).currentMatch = some cm' ∧
      cm'.board.Pairwise coordDistinct ∧
      cm'.board.filter (fun b => b.x == moveEv.x && b.y == moveEv.y)
        = [{ x := moveEv.x, y := moveEv.y, player := moveEv.player }] :=
  c6_board liveState liveCM moveEv 1000 rfl List.Pairwise.nil

/-- C7 counterexample: a move-played event whose payload reports a
negative red clock leaves the live match with a negative remaining-time
budget. -/
theorem c7_counterexample :
    clocksNonneg (onMovePlayed liveState negMoveEv 1000) = false := by decide

/-- C7 (amended): provided the starting budgets are nonnegative and
every move-played payload reports nonnegative remaining times, the
budgets stay nonnegative after any sequence of clock ticks and
move-played events; on a state with a live match and status "running",
a clock tick subtracts the elapsed time since the last recorded
timestamp from the side on move (even move number → red, odd → blue),
floors the result at zero, leaves the other side unchanged, and
advances the stored timestamp to now (a move event instead overwrites
both budgets with the payload's values). -/
theorem c7_clocks (s : TournamentState) (cm : CurrentMatchInfo) (now : Int)
    (inputs : List ClockInput)
    (h0 : clocksNonneg s = true) (hall : ∀ i ∈ inputs, inputNonneg i)
    (hcm : s.currentMatch = some cm) (hrun : s.status = "running") :
    clocksNonneg (applyClockInputs s inputs) = true ∧
    updateCountdown s now = { s with currentMatch := some (tickCM cm now) } ∧
    (cm.moveNumber % 2 = 0 →
      (tickCM cm now).redTimeRemainingMs
          = max 0 (cm.redTimeRemainingMs - (now - cm.lastMoveTimestamp)) ∧
      (tickCM cm now).blueTimeRemainingMs = cm.blueTimeRemainingMs) ∧
    (cm.moveNumber % 2 ≠ 0 →
      (tickCM cm now).blueTimeRemainingMs
          = max 0 (cm.blueTimeRemainingMs - (now - cm.lastMoveTimestamp)) ∧
      (tickCM cm now).redTimeRemainingMs = cm.redTimeRemainingMs) ∧
    (tickCM cm now).lastMoveTimestamp = now := by
  refine ⟨clocksNonneg_applyClockInputs inputs s h0 hall, ?_, ?_, ?_, ?_⟩
  · simp [updateCountdown, hcm, hrun]
  · intro he; simp [tickCM, he]
  · intro he; simp [tickCM, he]
  · simp only [tickCM]
    split <;> rfl

/-- C7 witness: the amended claim applied to the running live-match
fixture with a tick and a nonnegative move event. -/
theorem c7_clocks_witness :
    clocksNonneg (applyClockInputs liveState [ClockInput.tick 100, ClockInput.move moveEv 200])
        = true ∧
    updateCountdown liveState 1000
        = { liveState with currentMatch := some (tickCM liveCM 1000) } ∧
    (liveCM.moveNumber % 2 = 0 →
      (tickCM liveCM 1000).redTimeRemainingMs
          = max 0 (liveCM.redTimeRemainingMs - (1000 - liveCM.lastMoveTimestamp)) ∧
      (tickCM liveCM 1000).blueTimeRemainingMs = liveCM.blueTimeRemainingMs) ∧
    (liveCM.moveNumber % 2 ≠ 0 →
      (tickCM liveCM 1000).blueTimeRemainingMs
          = max 0 (liveCM.blueTimeRemainingMs - (1000 - liveCM.lastMoveTimestamp)) ∧
      (tickCM liveCM 1000).redTimeRemainingMs = liveCM.redTimeRemainingMs) ∧
    (tickCM liveCM 1000).lastMoveTimestamp = 1000 :=
  c7_clocks liveState liveCM 1000 [ClockInput.tick 100, ClockInput.move moveEv 200]
    (by decide) (by decide) rfl rfl

/-- C1 counterexample: a connect call whose transport start rejects
with message "boom" records the failure in the state but then
propagates the exception to its caller (the second component is the
re-thrown error). -/
theorem c1_counterexample :
    (connect initState false (.startFails "boom")).2 = some "boom" := rfl

/-- C1 (amended): every public operation except `connect` is embedded
as a total function with no exception channel — failures surface only
through `connectionState`/`errorMessage` or a boolean return — and
`connect` on a failed transport start records
`connectionState = "disconnected"` with an explanatory message and then
re-throws the underlying error to its caller; `connect` returns without
throwing when already connected or when the start succeeds. -/
theorem c1_exception_policy (s : TournamentState) (m : String) (fo : FetchOutcome)
    (o : ConnectOutcome) :
    (connect s true o = (s, none)) ∧
    ((connect s false (.startSucceeds fo)).2 = none) ∧
    (connect s false (.startFails m)
      = ({ s with connectionState := "disconnected",
                  errorMessage := some ("Failed to connect: " ++ m) }, some m)) :=
  ⟨rfl, rfl, rfl⟩

end CaroStore
